import Mathlib

/-!
Shallow embedding of the HTTP/2 session core in src/node_http2.cc
(Http2Session / Http2Stream and their helpers), together with proofs of
the behavioural properties claimed for it.

Modelling conventions:
* machine integers are Nat (all the quantities involved are sizes and
  counts; the source uses size_t / uint32_t with no overflowing
  arithmetic on the paths modelled here); statuses that the source
  stores in int are Int;
* the nghttp2 frame codec is external: values it reports (the local
  MAX_CONCURRENT_STREAMS setting, the stream id returned by
  nghttp2_submit_request, the chunks nghttp2_session_mem_send would
  emit during one flush) appear as fields of the state or as explicit
  arguments;
* wire and callback side effects (frames handed to the codec, WriteWrap
  completions, scheduled next-tick tasks) are returned as explicit data
  so that temporal claims can be stated about them;
* V8 / libuv plumbing (handles, Debug output, statistics counters,
  garbage collection) is not part of any claim and is omitted.
-/

namespace Http2

/-- Error code used by the source for unsolicited control-frame acks
(NGHTTP2_ERR_PROTO in nghttp2.h). -/
def NGHTTP2_ERR_PROTO : Int := -505

/-- RST_STREAM error code submitted on admission failures
(NGHTTP2_ENHANCE_YOUR_CALM, 0x0b). -/
def NGHTTP2_ENHANCE_YOUR_CALM : Nat := 11

/-- Status passed to WriteWrap::Done when a write is rejected because the
stream is not writable (libuv UV_EOF). -/
def UV_EOF : Int := -4095

/-- Status passed to WriteWrap::Done when queued writes are canceled
(libuv UV_ECANCELED). -/
def UV_ECANCELED : Int := -125

/-- Fixed per-header-pair accounting overhead added by
Http2Stream::AddHeader: name bytes + value bytes + 32. -/
def HEADER_OVERHEAD : Nat := 32

/-- One entry of an nghttp2_stream_write list: a byte range plus the
optional WriteWrap that must be completed once the range is written.
Byte contents are irrelevant to every claim, so an entry carries only
its length; a WriteWrap is identified by the id of the stream it belongs
to (req_wrap->stream() in the source), with none standing for a null
req_wrap. -/
structure StreamWrite where
  reqWrapStream : Option Nat
  len : Nat
deriving DecidableEq

/-- Per-stream state of Http2Stream, restricted to the fields the claims
are about: the DESTROYED flag, writability (NGHTTP2_STREAM_FLAG_SHUT not
set), the outbound data queue with its available_outbound_length_, the
accumulated header list (each pair kept as name length and value
length) with its running byte total and its two ceilings, the RST code,
and a counter of nghttp2_rcbuf_incref calls made while admitting
headers. -/
structure Http2Stream where
  id : Nat
  destroyed : Bool
  writable : Bool
  queue : List StreamWrite
  availableOutboundLength : Nat
  currentHeaders : List (Nat × Nat)
  currentHeadersLength : Nat
  maxHeaderPairs : Nat
  maxHeaderLength : Nat
  code : Nat
  increfs : Nat
deriving DecidableEq

/-- Session state of Http2Session restricted to what the claims need.
streams is the streams_ map as an association list (insertion ordered,
one entry per id); maxConcurrentStreams is the value
nghttp2_session_get_local_settings reports for
NGHTTP2_SETTINGS_MAX_CONCURRENT_STREAMS; streamsMaxSize is
streams_.max_size(); codecPending abstracts the chunks that
nghttp2_session_mem_send will emit during the next flush (including the
zero-copy slices OnSendData would append); socketGone models
stream_ == nullptr and writeAsync whether the transport write completes
asynchronously (StreamWriteResult.async). -/
structure Http2Session where
  destroyed : Bool
  closing : Bool
  closed : Bool
  sending : Bool
  writeScheduled : Bool
  streams : List (Nat × Http2Stream)
  currentSessionMemory : Nat
  maxSessionMemory : Nat
  maxConcurrentStreams : Nat
  streamsMaxSize : Nat
  outstandingPings : List Nat
  maxOutstandingPings : Nat
  outstandingSettings : List Nat
  maxOutstandingSettings : Nat
  outgoingBuffers : List StreamWrite
  pendingRstStreams : List Nat
  codecPending : List StreamWrite
  socketGone : Bool
  writeAsync : Bool
deriving DecidableEq

/-- Modelled from the spec: Http2Session::IsAvailableSessionMemory lives
in node_http2.h, which is not part of this source tree. The spec says
the MemoryBudget "tracks approximate bytes attributed to the session
... against a configured ceiling; answers can_afford(n) -> bool" and
that the total attributed memory stays at most the ceiling, checked
before charging. -/
def Http2Session.isAvailableSessionMemory (s : Http2Session) (amount : Nat) : Bool :=
  s.currentSessionMemory + amount ≤ s.maxSessionMemory

/-- Modelled from the spec: Http2Session::IncrementCurrentSessionMemory
(node_http2.h), the charge(n) operation of the MemoryBudget. -/
def Http2Session.incrementCurrentSessionMemory
    (s : Http2Session) (amount : Nat) : Http2Session :=
  { s with currentSessionMemory := s.currentSessionMemory + amount }

/-- Modelled from the spec: Http2Session::DecrementCurrentSessionMemory
(node_http2.h), the release(n) operation of the MemoryBudget. -/
def Http2Session.decrementCurrentSessionMemory
    (s : Http2Session) (amount : Nat) : Http2Session :=
  { s with currentSessionMemory := s.currentSessionMemory - amount }

/-- Http2Session::FindStream: locate a known stream by id, without
failing when it is absent. -/
def Http2Session.findStream (s : Http2Session) (id : Nat) : Option Http2Stream :=
  (s.streams.find? (fun p => p.1 == id)).map Prod.snd

/-- Replace the table entry for an existing stream id after its
Http2Stream object was mutated (the source mutates the object in place;
the table maps ids to the same objects). -/
def Http2Session.updateStream
    (s : Http2Session) (id : Nat) (st : Http2Stream) : Http2Session :=
  { s with streams := s.streams.map (fun p => if p.1 == id then (p.1, st) else p) }

/-- Http2Session::AddStream: streams_[stream->id()] = stream, then
IncrementCurrentSessionMemory(sizeof(*stream)). The stream structure
size is implementation defined, so it is the streamOverhead argument.
Statistics updates are omitted. -/
def Http2Session.addStream
    (streamOverhead : Nat) (s : Http2Session) (st : Http2Stream) : Http2Session :=
  let streams :=
    if (s.streams.find? (fun p => p.1 == st.id)).isSome then
      s.streams.map (fun p => if p.1 == st.id then (p.1, st) else p)
    else
      s.streams ++ [(st.id, st)]
  Http2Session.incrementCurrentSessionMemory { s with streams := streams } streamOverhead

/-- Http2Session::RemoveStream: erase the id from the table and release
the stream overhead, a no-op on an empty table. -/
def Http2Session.removeStream
    (streamOverhead : Nat) (s : Http2Session) (id : Nat) : Http2Session :=
  if s.streams.isEmpty then s
  else
    Http2Session.decrementCurrentSessionMemory
      { s with streams := s.streams.filter (fun p => !(p.1 == id)) } streamOverhead

/-- Http2Session::CanAddStream: a stream may be added while the table is
smaller than the smaller of streams_.max_size() and the local
MAX_CONCURRENT_STREAMS setting, and the memory budget can afford
sizeof(Http2Stream) (the streamOverhead argument). -/
def Http2Session.canAddStream (streamOverhead : Nat) (s : Http2Session) : Bool :=
  decide (s.streams.length < min s.streamsMaxSize s.maxConcurrentStreams) &&
  s.isAvailableSessionMemory streamOverhead

/-- The Http2Stream constructor, restricted to modelled fields: fresh
header accumulation state, writable, not destroyed; max_header_pairs_
comes from the session options with a default when configured as 0
(DEFAULT_MAX_HEADER_LIST_PAIRS, defined in the absent node_http2.h) and
max_header_length_ from the local MAX_HEADER_LIST_SIZE setting, both
passed here as the already-computed arguments. -/
def mkStream (id maxHeaderPairs maxHeaderLength : Nat) : Http2Stream :=
  { id := id
    destroyed := false
    writable := true
    queue := []
    availableOutboundLength := 0
    currentHeaders := []
    currentHeadersLength := 0
    maxHeaderPairs := maxHeaderPairs
    maxHeaderLength := maxHeaderLength
    code := 0
    increfs := 0 }

/-- Http2Session::SubmitRequest: ask the codec for a new stream id via
nghttp2_submit_request (its return value is the codecRet argument,
positive on success) and, whenever that id is positive, construct and
register an Http2Stream. No admission check of any kind is performed
here. The Http2Scope effects are not part of the claims. -/
def Http2Session.submitRequest
    (streamOverhead : Nat) (s : Http2Session) (codecRet : Int)
    (maxHeaderPairs maxHeaderLength : Nat) : Http2Session × Option Nat :=
  if codecRet > 0 then
    let st := mkStream codecRet.toNat maxHeaderPairs maxHeaderLength
    (Http2Session.addStream streamOverhead s st, some st.id)
  else
    (s, none)

/-- Result of Http2Session::OnBeginHeadersCallback for one inbound
HEADERS block: the stream was created, the block was refused with
RST_STREAM(NGHTTP2_ENHANCE_YOUR_CALM) plus
NGHTTP2_ERR_TEMPORAL_CALLBACK_FAILURE, or an existing stream restarted
its header accumulation. -/
inductive BeginHeadersResult
  | streamCreated
  | refused
  | headersRestarted
deriving DecidableEq

/-- Http2Stream::StartHeaders: reset the header accumulation state. The
category field is not modelled (no claim depends on it). -/
def Http2Stream.startHeaders (st : Http2Stream) : Http2Stream :=
  { st with currentHeadersLength := 0, currentHeaders := [] }

/-- Http2Session::OnBeginHeadersCallback: for a new id, admission-check
with CanAddStream and refuse with RST_STREAM(ENHANCE_YOUR_CALM) on
failure, otherwise construct and register the stream; for a known,
not-destroyed id, restart header accumulation. -/
def Http2Session.onBeginHeaders
    (streamOverhead : Nat) (s : Http2Session) (id : Nat)
    (maxHeaderPairs maxHeaderLength : Nat) : Http2Session × BeginHeadersResult :=
  match s.findStream id with
  | none =>
    if !(Http2Session.canAddStream streamOverhead s) then
      (s, .refused)
    else
      (Http2Session.addStream streamOverhead s (mkStream id maxHeaderPairs maxHeaderLength),
       .streamCreated)
  | some st =>
    if !st.destroyed then
      (s.updateStream id st.startHeaders, .headersRestarted)
    else
      (s, .headersRestarted)

/-- Http2Session::PopPing: pop the front of the outstanding-pings FIFO
if non-empty, releasing the ping overhead (sizeof(*ping), the pingOv
argument) from the memory budget. -/
def Http2Session.popPing (pingOv : Nat) (s : Http2Session) : Http2Session × Option Nat :=
  match s.outstandingPings with
  | [] => (s, none)
  | p :: rest =>
    (Http2Session.decrementCurrentSessionMemory
       { s with outstandingPings := rest } pingOv, some p)

/-- Http2Session::AddPing: refuse when the FIFO already holds
max_outstanding_pings_ entries, otherwise push the waiter and charge its
overhead. -/
def Http2Session.addPing (pingOv : Nat) (s : Http2Session) (p : Nat) :
    Http2Session × Bool :=
  if s.outstandingPings.length == s.maxOutstandingPings then
    (s, false)
  else
    (Http2Session.incrementCurrentSessionMemory
       { s with outstandingPings := s.outstandingPings ++ [p] } pingOv, true)

/-- Http2Session::PopSettings, the settings analogue of PopPing. -/
def Http2Session.popSettings (settingsOv : Nat) (s : Http2Session) :
    Http2Session × Option Nat :=
  match s.outstandingSettings with
  | [] => (s, none)
  | w :: rest =>
    (Http2Session.decrementCurrentSessionMemory
       { s with outstandingSettings := rest } settingsOv, some w)

/-- Http2Session::AddSettings, the settings analogue of AddPing. -/
def Http2Session.addSettings (settingsOv : Nat) (s : Http2Session) (w : Nat) :
    Http2Session × Bool :=
  if s.outstandingSettings.length == s.maxOutstandingSettings then
    (s, false)
  else
    (Http2Session.incrementCurrentSessionMemory
       { s with outstandingSettings := s.outstandingSettings ++ [w] } settingsOv, true)

/-- Outcome of the JS-facing Http2Session::Ping / Http2Session::Settings
entry points: the updated session, the value returned to the caller,
whether the frame reached the codec (nghttp2_submit_ping respectively
Http2Settings::Send), and the waiter completions performed synchronously
inside the call, each as (waiter, acknowledged). -/
structure SubmitControlResult where
  state : Http2Session
  returned : Bool
  sentToCodec : Bool
  doneNow : List (Nat × Bool)
deriving DecidableEq

/-- Http2Session::Ping: construct a waiter p, try AddPing; on refusal
complete the waiter synchronously with acknowledged=false and return
false without contacting the codec; on success serialize the PING frame
(Http2Ping::Send) and return true. -/
def Http2Session.ping (pingOv : Nat) (s : Http2Session) (p : Nat) :
    SubmitControlResult :=
  match Http2Session.addPing pingOv s p with
  | (s1, true) => { state := s1, returned := true, sentToCodec := true, doneNow := [] }
  | (_, false) => { state := s, returned := false, sentToCodec := false,
                    doneNow := [(p, false)] }

/-- Http2Session::Settings, the settings analogue of ping. -/
def Http2Session.settings (settingsOv : Nat) (s : Http2Session) (w : Nat) :
    SubmitControlResult :=
  match Http2Session.addSettings settingsOv s w with
  | (s1, true) => { state := s1, returned := true, sentToCodec := true, doneNow := [] }
  | (_, false) => { state := s, returned := false, sentToCodec := false,
                    doneNow := [(w, false)] }

/-- Observable outcome of receiving a PING or SETTINGS frame: the front
waiter completed (Http2Ping::Done / Http2Settings::Done with its ack
flag), a session-level error notification (the error callback with an
nghttp2 error code), the notification for a non-ack SETTINGS frame, or
nothing. -/
inductive AckEvent
  | waiterDone (w : Nat) (ack : Bool)
  | sessionError (code : Int)
  | settingsReceived
  | noEvent
deriving DecidableEq

/-- Http2Session::HandlePingFrame: on a PING with the ACK flag, pop the
front outstanding ping and complete it with acknowledged=true; when the
FIFO is empty, surface a session error notification carrying
NGHTTP2_ERR_PROTO instead of ignoring the ack. -/
def Http2Session.handlePingFrame (pingOv : Nat) (s : Http2Session) (isAck : Bool) :
    Http2Session × AckEvent :=
  if isAck then
    match Http2Session.popPing pingOv s with
    | (s1, some p) => (s1, .waiterDone p true)
    | (s1, none) => (s1, .sessionError NGHTTP2_ERR_PROTO)
  else
    (s, .noEvent)

/-- Http2Session::HandleSettingsFrame: on a SETTINGS with the ACK flag,
pop and complete the front outstanding settings waiter with
acknowledged=true, or surface a session error notification carrying
NGHTTP2_ERR_PROTO when the FIFO is empty; a non-ack SETTINGS frame emits
the onsettings notification. -/
def Http2Session.handleSettingsFrame
    (settingsOv : Nat) (s : Http2Session) (isAck : Bool) :
    Http2Session × AckEvent :=
  if isAck then
    match Http2Session.popSettings settingsOv s with
    | (s1, some w) => (s1, .waiterDone w true)
    | (s1, none) => (s1, .sessionError NGHTTP2_ERR_PROTO)
  else
    (s, .settingsReceived)

/-- Side effects of one flush cycle: the WriteWrap completions delivered
by ClearOutgoing, as (stream of the req_wrap, status), and the
RST_STREAM frames submitted to the codec from the deferred
pending_rst_streams_ list, as (stream id, code). -/
structure FlushEffects where
  completions : List (Nat × Int)
  rstSubmitted : List (Nat × Int)
deriving DecidableEq

mutual

/-- Http2Session::ClearOutgoing: unset the SENDING flag, complete every
queued outgoing write with the given status and drop the outgoing
buffers and storage; then, if RST_STREAM submissions were deferred while
sending, swap the pending list out, run SendPendingData once, and flush
each deferred RST_STREAM whose stream still exists and is not
destroyed (Http2Stream::FlushRstStream). The fuel argument bounds the
mutual recursion with SendPendingData, which the source bounds by
swapping pending_rst_streams_ to empty before re-entering. -/
def clearOutgoingF : Nat → Http2Session → Int → Http2Session × FlushEffects
  | 0, s, _ => (s, ⟨[], []⟩)
  | fuel + 1, s, status =>
    let s0 := { s with sending := false }
    let comps := s0.outgoingBuffers.filterMap
      (fun w => w.reqWrapStream.map (fun i => (i, status)))
    let s1 := { s0 with outgoingBuffers := [] }
    if s1.pendingRstStreams.isEmpty then
      (s1, ⟨comps, []⟩)
    else
      let pend := s1.pendingRstStreams
      let s2 := { s1 with pendingRstStreams := [] }
      let r := sendPendingDataF fuel s2
      let rsts := pend.filterMap (fun id =>
        match r.1.findStream id with
        | none => none
        | some st => if st.destroyed then none else some (id, (st.code : Int)))
      (r.1, ⟨comps ++ r.2.2.completions, r.2.2.rstSubmitted ++ rsts⟩)

/-- Http2Session::SendPendingData: bail out on a destroyed session;
clear WRITE_SCHEDULED; return 1 when a flush is already in progress
(SENDING set); otherwise set SENDING, gather what the codec has to emit
(the nghttp2_session_mem_send loop plus the OnSendData zero-copy slices,
abstracted as draining codecPending into outgoingBuffers), then: with no
underlying socket finish via ClearOutgoing(UV_ECANCELED); with nothing
gathered finish via ClearOutgoing(0); otherwise hand the buffers to the
transport, and when the write completes synchronously finish via
ClearOutgoing with its status (modelled as 0), while an asynchronous
write leaves SENDING set until OnStreamAfterWrite runs ClearOutgoing
later. Returns the session, the recursion-guard return value, and the
flush effects. -/
def sendPendingDataF : Nat → Http2Session → Http2Session × Nat × FlushEffects
  | 0, s => (s, 0, ⟨[], []⟩)
  | fuel + 1, s =>
    if s.destroyed then (s, 0, ⟨[], []⟩)
    else
      let s0 := { s with writeScheduled := false }
      if s0.sending then (s0, 1, ⟨[], []⟩)
      else
        let s1 := { s0 with sending := true }
        let s2 := { s1 with outgoingBuffers := s1.codecPending, codecPending := [] }
        if s2.socketGone then
          let r := clearOutgoingF fuel s2 UV_ECANCELED
          (r.1, 0, r.2)
        else if s2.outgoingBuffers.isEmpty then
          let r := clearOutgoingF fuel s2 0
          (r.1, 0, r.2)
        else if s2.writeAsync then
          (s2, 0, ⟨[], []⟩)
        else
          let r := clearOutgoingF fuel s2 0
          (r.1, 0, r.2)

end

/-- Entry point for Http2Session::SendPendingData; recursion depth in
the source is at most SendPendingData -> ClearOutgoing ->
SendPendingData -> ClearOutgoing (the inner call sees an empty pending
list), so fuel 4 is never exhausted. -/
def Http2Session.sendPendingData (s : Http2Session) : Http2Session × Nat × FlushEffects :=
  sendPendingDataF 4 s

/-- Entry point for Http2Session::ClearOutgoing, reached from
OnStreamAfterWrite when an asynchronous transport write completes. -/
def Http2Session.clearOutgoing (s : Http2Session) (status : Int) :
    Http2Session × FlushEffects :=
  clearOutgoingF 4 s status

/-- Http2Stream::FlushRstStream: submit RST_STREAM(code_) for this
stream to the codec unless the stream is destroyed. Returns the list of
submitted frames. -/
def Http2Stream.flushRstStream (st : Http2Stream) : List (Nat × Int) :=
  if st.destroyed then [] else [(st.id, (st.code : Int))]

/-- Result of Http2Stream::SubmitRstStream: the updated session and
stream, the RST_STREAM frames submitted to the codec during the call,
and whether the submission was deferred to pending_rst_streams_. -/
structure RstResult where
  sess : Http2Session
  stream : Http2Stream
  rstSubmitted : List (Nat × Int)
  deferred : Bool
deriving DecidableEq

/-- Http2Stream::SubmitRstStream: record the code, then force a purge of
pending data via SendPendingData; when that returns non-zero (a flush is
already in progress) defer by appending the id to pending_rst_streams_
(Http2Session::AddPendingRstStream, an inline emplace_back in
node_http2.h), otherwise submit the RST_STREAM immediately via
FlushRstStream. The source asserts the stream is not destroyed. -/
def Http2Stream.submitRstStream (s : Http2Session) (st : Http2Stream) (code : Nat) :
    RstResult :=
  let st1 := { st with code := code }
  let r := s.sendPendingData
  if r.2.1 ≠ 0 then
    { sess := { r.1 with pendingRstStreams := r.1.pendingRstStreams ++ [st1.id] }
      stream := st1
      rstSubmitted := r.2.2.rstSubmitted
      deferred := true }
  else
    { sess := r.1
      stream := st1
      rstSubmitted := r.2.2.rstSubmitted ++ st1.flushRstStream
      deferred := false }

/-- Http2Session::HasWritesOnSocketForStream: whether any outgoing
buffer currently handed to the socket carries a req_wrap belonging to
the given stream. -/
def Http2Session.hasWritesOnSocketForStream (s : Http2Session) (id : Nat) : Bool :=
  s.outgoingBuffers.any (fun w => w.reqWrapStream == some id)

/-- Result of Http2Stream::Destroy: the updated session and stream, any
RST_STREAM frames flushed for a previously deferred reset, and whether
the deferred deletion task was scheduled with SetImmediate. -/
structure DestroyResult where
  sess : Http2Session
  stream : Http2Stream
  rstFlushed : List (Nat × Int)
  taskScheduled : Bool
deriving DecidableEq

/-- Http2Stream::Destroy: a no-op when already destroyed; otherwise
flush a deferred RST_STREAM for this id if one is pending, set the
DESTROYED flag, and schedule the deletion task for the next tick of the
event loop (SetImmediate). Statistics updates are omitted. -/
def Http2Stream.destroy (s : Http2Session) (st : Http2Stream) : DestroyResult :=
  if st.destroyed then
    { sess := s, stream := st, rstFlushed := [], taskScheduled := false }
  else
    let rsts := if s.pendingRstStreams.contains st.id then st.flushRstStream else []
    { sess := s
      stream := { st with destroyed := true }
      rstFlushed := rsts
      taskScheduled := true }

/-- Result of the deferred deletion task scheduled by
Http2Stream::Destroy: the drained stream, the statuses delivered to the
req_wraps of still-queued outbound chunks, and whether the stream object
was deleted on this tick. -/
structure DestroyTickResult where
  stream : Http2Stream
  canceled : List Int
  freed : Bool
deriving DecidableEq

/-- The SetImmediate body of Http2Stream::Destroy, run on the next tick:
complete every remaining queued outbound chunk that carries a req_wrap
with UV_ECANCELED and empty the queue, then delete the stream only if
its session is gone or no write currently on the socket references the
stream; otherwise leave the object for the garbage collector. -/
def Http2Stream.destroyTick
    (s : Http2Session) (sessionGone : Bool) (st : Http2Stream) : DestroyTickResult :=
  let cancels := st.queue.filterMap (fun w => w.reqWrapStream.map (fun _ => UV_ECANCELED))
  { stream := { st with queue := [] }
    canceled := cancels
    freed := sessionGone || !(s.hasWritesOnSocketForStream st.id) }

/-- Result of Http2Stream::DoWrite: the updated session and stream,
the status a req_wrap was completed with synchronously (UV_EOF on a
non-writable or destroyed stream), and whether
nghttp2_session_resume_data was invoked to wake the write machinery. -/
structure DoWriteResult where
  sess : Http2Session
  stream : Http2Stream
  doneNow : Option Int
  resumedData : Bool
deriving DecidableEq

/-- The enqueue loop of Http2Stream::DoWrite: push each buffer onto the
stream queue, attaching the req_wrap only to the last one, and grow
available_outbound_length_ by each length
(Http2Stream::IncrementAvailableOutboundLength, which also charges the
session memory budget). -/
def enqueueBufs (sid lastIdx : Nat) :
    Nat → List Nat → Http2Session → Http2Stream → Http2Session × Http2Stream
  | _, [], s, st => (s, st)
  | i, len :: rest, s, st =>
    let st1 := { st with
      queue := st.queue ++ [⟨if i == lastIdx then some sid else none, len⟩]
      availableOutboundLength := st.availableOutboundLength + len }
    enqueueBufs sid lastIdx (i + 1) rest
      (Http2Session.incrementCurrentSessionMemory s len) st1

/-- Http2Stream::DoWrite: on a non-writable or destroyed stream complete
the req_wrap synchronously with UV_EOF and queue nothing; otherwise
queue all buffers (req_wrap on the last), grow
available_outbound_length_ accordingly, and call
nghttp2_session_resume_data unconditionally. Each buffer is its byte
length. -/
def Http2Stream.doWrite (s : Http2Session) (st : Http2Stream) (bufs : List Nat) :
    DoWriteResult :=
  if !st.writable || st.destroyed then
    { sess := s, stream := st, doneNow := some UV_EOF, resumedData := false }
  else
    let r := enqueueBufs st.id (bufs.length - 1) 0 bufs s st
    { sess := r.1, stream := r.2, doneNow := none, resumedData := true }

/-- Http2Stream::AddHeader: price the pair as name length + value length
+ 32 and admit it only when the session memory budget can afford that
size, the pair count is not already at max_header_pairs_, and the
running byte total stays within max_header_length_; admission appends
the pair, adds its price to the running total and increfs the two
rcbufs, while rejection changes nothing and returns false. -/
def Http2Stream.addHeader
    (s : Http2Session) (st : Http2Stream) (nameLen valueLen : Nat) :
    Http2Stream × Bool :=
  let length := nameLen + valueLen + HEADER_OVERHEAD
  if !(s.isAvailableSessionMemory length) ||
     st.currentHeaders.length == st.maxHeaderPairs ||
     decide (st.currentHeadersLength + length > st.maxHeaderLength) then
    (st, false)
  else
    ({ st with
        currentHeaders := st.currentHeaders ++ [(nameLen, valueLen)]
        currentHeadersLength := st.currentHeadersLength + length
        increfs := st.increfs + 2 }, true)

/-- Outcome of Http2Session::OnHeaderCallback: the pair was admitted (or
the stream is already destroyed and the pair ignored), the stream was
reset with the given code and NGHTTP2_ERR_TEMPORAL_CALLBACK_FAILURE
returned, or the stream no longer exists. -/
inductive HeaderCallbackOutcome
  | ok
  | streamReset (id : Nat) (code : Nat)
  | temporalFailure
deriving DecidableEq

/-- Http2Session::OnHeaderCallback: fail when the stream is gone; ignore
the pair on a destroyed stream; otherwise AddHeader, and on rejection
reset that single stream with
Http2Stream::SubmitRstStream(NGHTTP2_ENHANCE_YOUR_CALM). -/
def Http2Session.onHeaderCallback
    (s : Http2Session) (id nameLen valueLen : Nat) :
    Http2Session × HeaderCallbackOutcome :=
  match s.findStream id with
  | none => (s, .temporalFailure)
  | some st =>
    if st.destroyed then (s, .ok)
    else
      match st.addHeader s nameLen valueLen with
      | (st1, true) => (s.updateStream id st1, .ok)
      | (_, false) =>
        let r := Http2Stream.submitRstStream s st NGHTTP2_ENHANCE_YOUR_CALM
        (r.sess.updateStream id r.stream, .streamReset id NGHTTP2_ENHANCE_YOUR_CALM)

/-- Result of Http2Session::Close: the updated session, whether a
best-effort GOAWAY was attempted (nghttp2_session_terminate_session plus
SendPendingData), the waiter completions scheduled with SetImmediate for
the next tick of the event loop as (waiter, acknowledged), and the
waiter completions performed synchronously inside Close. -/
structure CloseResult where
  state : Http2Session
  goawaySent : Bool
  deferredDone : List (Nat × Bool)
  syncDone : List (Nat × Bool)
deriving DecidableEq

/-- Http2Session::Close: return immediately when already closing;
otherwise set CLOSING, stop reading, attempt a best-effort GOAWAY when
the socket is still usable, set CLOSED, and pop every outstanding ping,
scheduling its Done(false) for the next tick with SetImmediate. The
while loop of PopPing calls releases the ping overhead once per popped
ping; since Nat subtraction satisfies m - a - b = m - (a + b), the loop
is written in closed form. The outstanding settings queue is not
touched. -/
def Http2Session.close
    (pingOv : Nat) (s : Http2Session) (_code : Nat) (socketClosed : Bool) :
    CloseResult :=
  if s.closing then
    { state := s, goawaySent := false, deferredDone := [], syncDone := [] }
  else
    let s1 := { s with closing := true }
    let s2 := if !socketClosed then (s1.sendPendingData).1 else s1
    let s3 := { s2 with closed := true }
    let cancelled := s3.outstandingPings
    let s4 := { s3 with
      outstandingPings := []
      currentSessionMemory := s3.currentSessionMemory - cancelled.length * pingOv }
    { state := s4
      goawaySent := !socketClosed
      deferredDone := cancelled.map (fun p => (p, false))
      syncDone := [] }

/-- Http2Session::OnDWordAlignedPadding: pad so that the total frame
size including the 9 header bytes is 8-byte aligned, capped by the
codec-reported max payload length for the frame. -/
def Http2Session.onDWordAlignedPadding (frameLen maxPayloadLen : Nat) : Nat :=
  let r := (frameLen + 9) % 8
  if r = 0 then frameLen
  else
    let pad := frameLen + (8 - r)
    min maxPayloadLen pad

/-- Price of one header pair as charged by Http2Stream::AddHeader. -/
def pricedSize (p : Nat × Nat) : Nat := p.1 + p.2 + HEADER_OVERHEAD

/-- Total priced size of an admitted header list. -/
def headerListPrice (l : List (Nat × Nat)) : Nat := (l.map pricedSize).sum

/-- Feeding a whole block of header pairs to Http2Stream::AddHeader in
order, keeping the stream state reached after each call (the session is
read-only in AddHeader). -/
def addHeaders (s : Http2Session) (st : Http2Stream) (pairs : List (Nat × Nat)) :
    Http2Stream :=
  pairs.foldl (fun acc p => (acc.addHeader s p.1 p.2).1) st

/-- Session fields that no function of the flush cycle
(SendPendingData / ClearOutgoing) mutates. -/
def sameCore (a b : Http2Session) : Prop :=
  a.streams = b.streams ∧ a.closing = b.closing ∧ a.closed = b.closed ∧
  a.outstandingPings = b.outstandingPings ∧
  a.outstandingSettings = b.outstandingSettings ∧
  a.destroyed = b.destroyed

theorem sameCore_refl (a : Http2Session) : sameCore a a :=
  ⟨rfl, rfl, rfl, rfl, rfl, rfl⟩

theorem sameCore_trans {a b c : Http2Session}
    (h1 : sameCore a b) (h2 : sameCore b c) : sameCore a c := by
  obtain ⟨x1, x2, x3, x4, x5, x6⟩ := h1
  obtain ⟨y1, y2, y3, y4, y5, y6⟩ := h2
  exact ⟨x1.trans y1, x2.trans y2, x3.trans y3, x4.trans y4, x5.trans y5, x6.trans y6⟩

/-- Neither ClearOutgoing nor SendPendingData touches the stream table,
the lifecycle flags, or the two waiter FIFOs. -/
theorem flush_sameCore (fuel : Nat) :
    (∀ s status, sameCore (clearOutgoingF fuel s status).1 s) ∧
    (∀ s, sameCore (sendPendingDataF fuel s).1 s) := by
  induction fuel with
  | zero => exact ⟨fun s _ => sameCore_refl s, fun s => sameCore_refl s⟩
  | succ n ih =>
    constructor
    · intro s status
      simp only [clearOutgoingF]
      split
      · exact ⟨rfl, rfl, rfl, rfl, rfl, rfl⟩
      · exact sameCore_trans (ih.2 _) ⟨rfl, rfl, rfl, rfl, rfl, rfl⟩
    · intro s
      simp only [sendPendingDataF]
      split
      · exact sameCore_refl s
      · split
        · exact ⟨rfl, rfl, rfl, rfl, rfl, rfl⟩
        · split
          · exact sameCore_trans (ih.1 _ _) ⟨rfl, rfl, rfl, rfl, rfl, rfl⟩
          · split
            · exact sameCore_trans (ih.1 _ _) ⟨rfl, rfl, rfl, rfl, rfl, rfl⟩
            · split
              · exact ⟨rfl, rfl, rfl, rfl, rfl, rfl⟩
              · exact sameCore_trans (ih.1 _ _) ⟨rfl, rfl, rfl, rfl, rfl, rfl⟩

/-- A flush cycle started with no deferred RST_STREAM ids leaves the
deferred list empty. -/
theorem flush_pending_nil (fuel : Nat) :
    (∀ s status, s.pendingRstStreams = [] →
       (clearOutgoingF fuel s status).1.pendingRstStreams = []) ∧
    (∀ s, s.pendingRstStreams = [] →
       (sendPendingDataF fuel s).1.pendingRstStreams = []) := by
  induction fuel with
  | zero => exact ⟨fun s _ h => h, fun s h => h⟩
  | succ n ih =>
    constructor
    · intro s status h
      simp only [clearOutgoingF]
      split
      · simpa using h
      · exact ih.2 _ rfl
    · intro s h
      simp only [sendPendingDataF]
      split
      · exact h
      · split
        · exact h
        · split
          · exact ih.1 _ _ (by simpa using h)
          · split
            · exact ih.1 _ _ (by simpa using h)
            · split
              · simpa using h
              · exact ih.1 _ _ (by simpa using h)

/-- Base session used by concrete witnesses and counterexamples: a
fresh session with generous limits. -/
def emptySession : Http2Session :=
  { destroyed := false
    closing := false
    closed := false
    sending := false
    writeScheduled := false
    streams := []
    currentSessionMemory := 0
    maxSessionMemory := 10000
    maxConcurrentStreams := 100
    streamsMaxSize := 1000000
    outstandingPings := []
    maxOutstandingPings := 10
    outstandingSettings := []
    maxOutstandingSettings := 10
    outgoingBuffers := []
    pendingRstStreams := []
    codecPending := []
    socketGone := false
    writeAsync := false }

/-- C9: under the align-to-boundary padding strategy with boundary 8,
OnDWordAlignedPadding returns frameLen when frameLen + 9 is already a
multiple of 8; otherwise it returns the minimum of maxPayloadLen and the
smallest padded payload length strictly above frameLen whose total frame
size (payload + 9 header bytes) is a multiple of 8; consequently
whenever the result plus 9 is not a multiple of 8, the max-payload cap
was the binding constraint. -/
theorem dword_aligned_padding_correct (frameLen maxPayloadLen : Nat)
    (h : frameLen ≤ maxPayloadLen) :
    ((frameLen + 9) % 8 = 0 →
       Http2Session.onDWordAlignedPadding frameLen maxPayloadLen = frameLen) ∧
    ((frameLen + 9) % 8 ≠ 0 →
       ∃ q, frameLen < q ∧ (q + 9) % 8 = 0 ∧
         (∀ q2, frameLen < q2 → (q2 + 9) % 8 = 0 → q ≤ q2) ∧
         Http2Session.onDWordAlignedPadding frameLen maxPayloadLen =
           min maxPayloadLen q) ∧
    ((Http2Session.onDWordAlignedPadding frameLen maxPayloadLen + 9) % 8 ≠ 0 →
       Http2Session.onDWordAlignedPadding frameLen maxPayloadLen = maxPayloadLen) := by
  unfold Http2Session.onDWordAlignedPadding
  refine ⟨fun h0 => by simp [h0], fun h0 => ?_, fun hres => ?_⟩
  · refine ⟨frameLen + (8 - (frameLen + 9) % 8), by omega, by omega,
      fun q2 hq2 hmod => by omega, by simp [h0]⟩
  · by_cases h0 : (frameLen + 9) % 8 = 0
    · simp [h0] at hres
    · simp only [h0, if_false] at hres ⊢
      omega

/-- Witness for dword_aligned_padding_correct at frameLen 3,
maxPayloadLen 10. -/
theorem dword_aligned_padding_correct_witness :
    3 ≤ 10 ∧
    (((3 + 9) % 8 = 0 → Http2Session.onDWordAlignedPadding 3 10 = 3) ∧
     ((3 + 9) % 8 ≠ 0 →
        ∃ q, 3 < q ∧ (q + 9) % 8 = 0 ∧
          (∀ q2, 3 < q2 → (q2 + 9) % 8 = 0 → q ≤ q2) ∧
          Http2Session.onDWordAlignedPadding 3 10 = min 10 q) ∧
     ((Http2Session.onDWordAlignedPadding 3 10 + 9) % 8 ≠ 0 →
        Http2Session.onDWordAlignedPadding 3 10 = 10)) :=
  ⟨by decide, dword_aligned_padding_correct 3 10 (by decide)⟩

/-- C4: when the outstanding-pings FIFO already holds the configured
maximum, Http2Session::Ping fails synchronously (returns false, the
waiter is completed with acknowledged=false inside the call, the FIFO is
unchanged) and the codec is never asked to serialize the PING frame;
likewise for Http2Session::Settings with the outstanding-settings FIFO. -/
theorem ping_settings_flood_refused (pingOv settingsOv : Nat) (s : Http2Session)
    (p w : Nat)
    (hp : s.outstandingPings.length = s.maxOutstandingPings)
    (hw : s.outstandingSettings.length = s.maxOutstandingSettings) :
    Http2Session.ping pingOv s p =
      { state := s, returned := false, sentToCodec := false, doneNow := [(p, false)] } ∧
    Http2Session.settings settingsOv s w =
      { state := s, returned := false, sentToCodec := false, doneNow := [(w, false)] } := by
  constructor
  · simp [Http2Session.ping, Http2Session.addPing, hp]
  · simp [Http2Session.settings, Http2Session.addSettings, hw]

/-- Session with max_outstanding_pings 2 and max_outstanding_settings 0
for the flood scenario. -/
def c4Base : Http2Session :=
  { emptySession with maxOutstandingPings := 2, maxOutstandingSettings := 0 }

/-- State of c4Base after two successful PING submissions. -/
def c4AfterTwo : Http2Session :=
  (Http2Session.ping 1 (Http2Session.ping 1 c4Base 1).state 2).state

/-- Witness for ping_settings_flood_refused: sending three PINGs with
max-outstanding-pings 2 makes the first two succeed and reach the codec
while the third fails synchronously without reaching it. -/
theorem ping_settings_flood_refused_witness :
    (Http2Session.ping 1 c4Base 1).returned = true ∧
    (Http2Session.ping 1 c4Base 1).sentToCodec = true ∧
    (Http2Session.ping 1 (Http2Session.ping 1 c4Base 1).state 2).returned = true ∧
    (Http2Session.ping 1 (Http2Session.ping 1 c4Base 1).state 2).sentToCodec = true ∧
    c4AfterTwo.outstandingPings.length = c4AfterTwo.maxOutstandingPings ∧
    c4AfterTwo.outstandingSettings.length = c4AfterTwo.maxOutstandingSettings ∧
    (Http2Session.ping 1 c4AfterTwo 3 =
      { state := c4AfterTwo, returned := false, sentToCodec := false,
        doneNow := [(3, false)] } ∧
     Http2Session.settings 1 c4AfterTwo 5 =
      { state := c4AfterTwo, returned := false, sentToCodec := false,
        doneNow := [(5, false)] }) :=
  ⟨by decide, by decide, by decide, by decide, by decide, by decide,
   ping_settings_flood_refused 1 1 c4AfterTwo 3 5 (by decide) (by decide)⟩

/-- C5: a PING or SETTINGS acknowledgment arriving while the matching
waiter FIFO is empty raises a session error notification carrying
NGHTTP2_ERR_PROTO rather than being ignored; with a non-empty FIFO the
front waiter is popped and completed with acknowledged=true. -/
theorem unsolicited_ack_is_session_error (pingOv settingsOv : Nat) (s : Http2Session) :
    (s.outstandingPings = [] →
       Http2Session.handlePingFrame pingOv s true =
         (s, .sessionError NGHTTP2_ERR_PROTO)) ∧
    (∀ p rest, s.outstandingPings = p :: rest →
       Http2Session.handlePingFrame pingOv s true =
         ({ s with
             outstandingPings := rest,
             currentSessionMemory := s.currentSessionMemory - pingOv },
          .waiterDone p true)) ∧
    (s.outstandingSettings = [] →
       Http2Session.handleSettingsFrame settingsOv s true =
         (s, .sessionError NGHTTP2_ERR_PROTO)) ∧
    (∀ w rest, s.outstandingSettings = w :: rest →
       Http2Session.handleSettingsFrame settingsOv s true =
         ({ s with
             outstandingSettings := rest,
             currentSessionMemory := s.currentSessionMemory - settingsOv },
          .waiterDone w true)) := by
  refine ⟨fun h => ?_, fun p rest h => ?_, fun h => ?_, fun w rest h => ?_⟩
  · simp [Http2Session.handlePingFrame, Http2Session.popPing, h]
  · simp [Http2Session.handlePingFrame, Http2Session.popPing, h,
      Http2Session.decrementCurrentSessionMemory]
  · simp [Http2Session.handleSettingsFrame, Http2Session.popSettings, h]
  · simp [Http2Session.handleSettingsFrame, Http2Session.popSettings, h,
      Http2Session.decrementCurrentSessionMemory]

/-- Session holding one outstanding ping (waiter 4) and one outstanding
settings waiter (waiter 6). -/
def c5State : Http2Session :=
  { emptySession with
    outstandingPings := [4]
    outstandingSettings := [6]
    currentSessionMemory := 2 }

/-- Witness for unsolicited_ack_is_session_error: on an empty session
both acks raise the protocol error; on c5State both acks complete the
front waiter with acknowledged=true. -/
theorem unsolicited_ack_is_session_error_witness :
    emptySession.outstandingPings = [] ∧
    Http2Session.handlePingFrame 1 emptySession true =
      (emptySession, .sessionError NGHTTP2_ERR_PROTO) ∧
    Http2Session.handleSettingsFrame 1 emptySession true =
      (emptySession, .sessionError NGHTTP2_ERR_PROTO) ∧
    Http2Session.handlePingFrame 1 c5State true =
      ({ c5State with
          outstandingPings := [],
          currentSessionMemory := c5State.currentSessionMemory - 1 },
       .waiterDone 4 true) ∧
    Http2Session.handleSettingsFrame 1 c5State true =
      ({ c5State with
          outstandingSettings := [],
          currentSessionMemory := c5State.currentSessionMemory - 1 },
       .waiterDone 6 true) :=
  ⟨rfl,
   (unsolicited_ack_is_session_error 1 1 emptySession).1 rfl,
   (unsolicited_ack_is_session_error 1 1 emptySession).2.2.1 rfl,
   (unsolicited_ack_is_session_error 1 1 c5State).2.1 4 [] rfl,
   (unsolicited_ack_is_session_error 1 1 c5State).2.2.2 6 [] rfl⟩

/-- Fresh session whose codec negotiated MAX_CONCURRENT_STREAMS = 1 and
whose memory budget is already at its ceiling. -/
def c1Start : Http2Session :=
  { emptySession with maxConcurrentStreams := 1, currentSessionMemory := 10000 }

/-- The session after one SubmitRequest call on c1Start (the codec
assigned stream id 1): the table is at the concurrent-stream bound. -/
def c1State : Http2Session :=
  (Http2Session.submitRequest 10 c1Start 1 16 1000).1

/-- C1 counterexample: a sequence of two SubmitRequest calls on a fresh
session with a negotiated MAX_CONCURRENT_STREAMS of 1 and an exhausted
memory budget. After the first call the table is at the bound and
CanAddStream is false on both counts, yet the second call is not
refused: it registers a new stream (the codec assigned id 3) and pushes
the table above the bound. -/
theorem submit_request_unchecked_counterexample :
    c1State.streams.length =
      min c1State.streamsMaxSize c1State.maxConcurrentStreams ∧
    Http2Session.canAddStream 10 c1State = false ∧
    (Http2Session.submitRequest 10 c1State 3 16 1000).2 = some 3 ∧
    (Http2Session.submitRequest 10 c1State 3 16 1000).1.streams.length >
      min c1State.streamsMaxSize c1State.maxConcurrentStreams := by decide

/-- C1 amended: the CanAddStream admission control guards
remotely-initiated streams in OnBeginHeadersCallback: a begin-headers
event never pushes the stream table above the smaller of
streams_.max_size() and the negotiated MAX_CONCURRENT_STREAMS, and when
the table is at that bound or the memory budget cannot afford the stream
overhead, the new remote stream is refused (answered with
RST_STREAM(NGHTTP2_ENHANCE_YOUR_CALM)) and the session state is
unchanged. -/
theorem remote_stream_admission_bounded (ov : Nat) (s : Http2Session)
    (id mhp mhl : Nat)
    (hbound : s.streams.length ≤ min s.streamsMaxSize s.maxConcurrentStreams) :
    (Http2Session.onBeginHeaders ov s id mhp mhl).1.streams.length ≤
      min s.streamsMaxSize s.maxConcurrentStreams ∧
    (s.findStream id = none → Http2Session.canAddStream ov s = false →
       Http2Session.onBeginHeaders ov s id mhp mhl = (s, .refused)) := by
  constructor
  · unfold Http2Session.onBeginHeaders
    cases hfind : s.findStream id with
    | none =>
      cases hcan : Http2Session.canAddStream ov s with
      | false => simpa using hbound
      | true =>
        have hfind2 : s.streams.find? (fun p => p.1 == id) = none := by
          unfold Http2Session.findStream at hfind
          exact Option.map_eq_none'.mp hfind
        have hlt : s.streams.length < min s.streamsMaxSize s.maxConcurrentStreams := by
          unfold Http2Session.canAddStream at hcan
          simp only [Bool.and_eq_true, decide_eq_true_eq] at hcan
          exact hcan.1
        simp [Http2Session.addStream, Http2Session.incrementCurrentSessionMemory,
          hfind2, mkStream]
        omega
    | some st =>
      cases hd : st.destroyed <;>
        simp [hd, Http2Session.updateStream, hbound]
  · intro hfind hcan
    simp [Http2Session.onBeginHeaders, hfind, hcan]

/-- Session with one active stream and room for one more remote stream. -/
def c1WitnessState : Http2Session :=
  { emptySession with
    maxConcurrentStreams := 2
    streams := [(1, mkStream 1 16 1000)] }

/-- Witness for remote_stream_admission_bounded at a session holding one
stream with a bound of two. -/
theorem remote_stream_admission_bounded_witness :
    c1WitnessState.streams.length ≤
      min c1WitnessState.streamsMaxSize c1WitnessState.maxConcurrentStreams ∧
    ((Http2Session.onBeginHeaders 10 c1WitnessState 3 16 1000).1.streams.length ≤
       min c1WitnessState.streamsMaxSize c1WitnessState.maxConcurrentStreams ∧
     (c1WitnessState.findStream 3 = none →
        Http2Session.canAddStream 10 c1WitnessState = false →
        Http2Session.onBeginHeaders 10 c1WitnessState 3 16 1000 =
          (c1WitnessState, .refused))) :=
  ⟨by decide, remote_stream_admission_bounded 10 c1WitnessState 3 16 1000 (by decide)⟩

/-- Session with one outstanding settings waiter and no outstanding
pings. -/
def c2State : Http2Session := { emptySession with outstandingSettings := [7] }

/-- C2 counterexample: closing a session with an outstanding Settings
waiter completes nothing for it, neither synchronously nor on a later
tick; the waiter is simply left in the queue of the closed session. Only
Ping waiters are cancelled by Close. -/
theorem close_ignores_settings_counterexample :
    c2State.outstandingSettings = [7] ∧
    (Http2Session.close 1 c2State 0 true).state.outstandingSettings = [7] ∧
    (Http2Session.close 1 c2State 0 true).deferredDone = [] ∧
    (Http2Session.close 1 c2State 0 true).syncDone = [] := by decide

/-- C2 amended: after Close runs on a session that was not already
closing, every outstanding Ping waiter (and only Ping waiters) is
scheduled to be completed with acknowledged=false on the next tick of
the event loop, no waiter is completed synchronously inside Close, the
ping queue is emptied, and the outstanding Settings queue is left
untouched with no cancellation scheduled for it. -/
theorem close_cancels_pings_on_next_tick (pingOv : Nat) (s : Http2Session)
    (code : Nat) (socketClosed : Bool) (h : s.closing = false) :
    (Http2Session.close pingOv s code socketClosed).deferredDone =
      s.outstandingPings.map (fun p => (p, false)) ∧
    (Http2Session.close pingOv s code socketClosed).syncDone = [] ∧
    (Http2Session.close pingOv s code socketClosed).state.outstandingPings = [] ∧
    (Http2Session.close pingOv s code socketClosed).state.outstandingSettings =
      s.outstandingSettings ∧
    (Http2Session.close pingOv s code socketClosed).state.closing = true ∧
    (Http2Session.close pingOv s code socketClosed).state.closed = true := by
  obtain ⟨hstr, hcl, hcld, hpg, hst, hdes⟩ :=
    (flush_sameCore 4).2 { s with closing := true }
  unfold Http2Session.close
  cases socketClosed <;>
    simp [h, Http2Session.sendPendingData, hpg, hst, hcl]

/-- Session with two outstanding pings, for the end-to-end close
scenario. -/
def c2WitnessState : Http2Session :=
  { emptySession with outstandingPings := [1, 2], currentSessionMemory := 2 }

/-- Witness for close_cancels_pings_on_next_tick: closing a session with
two outstanding PINGs schedules exactly their two acknowledged=false
completions for the next tick, completes nothing synchronously, and
leaves the (empty) settings queue untouched. -/
theorem close_cancels_pings_on_next_tick_witness :
    c2WitnessState.closing = false ∧
    ((Http2Session.close 1 c2WitnessState 0 false).deferredDone =
       c2WitnessState.outstandingPings.map (fun p => (p, false)) ∧
     (Http2Session.close 1 c2WitnessState 0 false).syncDone = [] ∧
     (Http2Session.close 1 c2WitnessState 0 false).state.outstandingPings = [] ∧
     (Http2Session.close 1 c2WitnessState 0 false).state.outstandingSettings =
       c2WitnessState.outstandingSettings ∧
     (Http2Session.close 1 c2WitnessState 0 false).state.closing = true ∧
     (Http2Session.close 1 c2WitnessState 0 false).state.closed = true) :=
  ⟨rfl, close_cancels_pings_on_next_tick 1 c2WitnessState 0 false rfl⟩

/-- One AddHeader call preserves the header-accumulation invariant: a
rejected pair changes nothing, an admitted pair keeps the pair count and
the running byte total within their ceilings and keeps the running total
equal to the summed priced sizes of the admitted pairs. -/
theorem addHeader_step (s : Http2Session) (st : Http2Stream) (n v : Nat)
    (hcount : st.currentHeaders.length ≤ st.maxHeaderPairs)
    (hlen : st.currentHeadersLength ≤ st.maxHeaderLength)
    (hsum : headerListPrice st.currentHeaders = st.currentHeadersLength) :
    (st.addHeader s n v).1.currentHeaders.length ≤ st.maxHeaderPairs ∧
    (st.addHeader s n v).1.currentHeadersLength ≤ st.maxHeaderLength ∧
    headerListPrice (st.addHeader s n v).1.currentHeaders =
      (st.addHeader s n v).1.currentHeadersLength ∧
    (st.addHeader s n v).1.maxHeaderPairs = st.maxHeaderPairs ∧
    (st.addHeader s n v).1.maxHeaderLength = st.maxHeaderLength := by
  cases hcond : (!s.isAvailableSessionMemory (n + v + HEADER_OVERHEAD) ||
      st.currentHeaders.length == st.maxHeaderPairs ||
      decide (st.currentHeadersLength + (n + v + HEADER_OVERHEAD) > st.maxHeaderLength)) with
  | true =>
    simp only [Http2Stream.addHeader, hcond, if_true]
    exact ⟨hcount, hlen, hsum, by trivial, by trivial⟩
  | false =>
    have hparts := hcond
    simp only [Bool.or_eq_false_iff, beq_eq_false_iff_ne, ne_eq,
      decide_eq_false_iff_not, not_lt] at hparts
    have hsum2 : (st.currentHeaders.map pricedSize).sum = st.currentHeadersLength := hsum
    simp only [Http2Stream.addHeader, hcond, Bool.false_eq_true, if_false]
    refine ⟨?_, ?_, ?_, by trivial, by trivial⟩
    · simp only [List.length_append, List.length_cons, List.length_nil]
      omega
    · omega
    · simp only [headerListPrice, pricedSize, List.map_append, List.sum_append,
        List.map_cons, List.map_nil, List.sum_cons, List.sum_nil, hsum2]
      omega

/-- Every fold of AddHeader calls preserves the header-accumulation
invariant. -/
theorem addHeaders_bounds (s : Http2Session) (pairs : List (Nat × Nat)) :
    ∀ st : Http2Stream,
      st.currentHeaders.length ≤ st.maxHeaderPairs →
      st.currentHeadersLength ≤ st.maxHeaderLength →
      headerListPrice st.currentHeaders = st.currentHeadersLength →
      ((addHeaders s st pairs).currentHeaders.length ≤ st.maxHeaderPairs ∧
       (addHeaders s st pairs).currentHeadersLength ≤ st.maxHeaderLength ∧
       headerListPrice (addHeaders s st pairs).currentHeaders =
         (addHeaders s st pairs).currentHeadersLength ∧
       (addHeaders s st pairs).maxHeaderPairs = st.maxHeaderPairs ∧
       (addHeaders s st pairs).maxHeaderLength = st.maxHeaderLength) := by
  induction pairs with
  | nil => intro st h1 h2 h3; exact ⟨h1, h2, h3, rfl, rfl⟩
  | cons p rest ih =>
    intro st h1 h2 h3
    obtain ⟨s1, s2, s3, s4, s5⟩ := addHeader_step s st p.1 p.2 h1 h2 h3
    have hrest := ih (st.addHeader s p.1 p.2).1 (s4 ▸ s1) (s5 ▸ s2) s3
    simp only [addHeaders, List.foldl_cons] at *
    exact ⟨s4 ▸ hrest.1, s5 ▸ hrest.2.1, hrest.2.2.1,
      s4 ▸ hrest.2.2.2.1, s5 ▸ hrest.2.2.2.2⟩

/-- Updating one table entry in place does not change the set of stream
ids in the table. -/
theorem map_fst_update (l : List (Nat × Http2Stream)) (id : Nat) (st : Http2Stream) :
    (l.map (fun p => if p.1 == id then (p.1, st) else p)).map Prod.fst =
      l.map Prod.fst := by
  induction l with
  | nil => rfl
  | cons a t ih =>
    simp only [List.map_cons, ih]
    by_cases hx : a.1 == id <;> simp [hx]

/-- SubmitRstStream never tears the session down: the lifecycle flags
and the stream table are untouched, and the stream only records the
code. -/
theorem submitRstStream_core (s : Http2Session) (st : Http2Stream) (code : Nat) :
    (Http2Stream.submitRstStream s st code).sess.closing = s.closing ∧
    (Http2Stream.submitRstStream s st code).sess.closed = s.closed ∧
    (Http2Stream.submitRstStream s st code).sess.streams = s.streams ∧
    (Http2Stream.submitRstStream s st code).stream = { st with code := code } := by
  obtain ⟨hstr, hcl, hcld, _, _, _⟩ := (flush_sameCore 4).2 s
  by_cases hr : (sendPendingDataF 4 s).2.1 = 0 <;>
    simp [Http2Stream.submitRstStream, Http2Session.sendPendingData, hr, hstr, hcl, hcld]

/-- C3: starting from StartHeaders, any sequence of AddHeader calls
keeps the total priced size of the admitted pairs within the per-stream
byte ceiling and their count within the per-stream pair ceiling; a pair
whose admission would violate a bound is rejected with false and
accumulates nothing; and via OnHeaderCallback such a rejection resets
that single stream with NGHTTP2_ENHANCE_YOUR_CALM while the session
survives: its lifecycle flags and its set of registered streams are
unchanged. -/
theorem header_limits_enforced (s : Http2Session) (st : Http2Stream)
    (pairs : List (Nat × Nat)) (id n v : Nat)
    (hfind : s.findStream id = some st) (hdes : st.destroyed = false)
    (hrej : (st.addHeader s n v).2 = false) :
    (headerListPrice (addHeaders s st.startHeaders pairs).currentHeaders ≤
       st.maxHeaderLength ∧
     (addHeaders s st.startHeaders pairs).currentHeaders.length ≤
       st.maxHeaderPairs) ∧
    (st.addHeader s n v).1 = st ∧
    ((s.onHeaderCallback id n v).2 = .streamReset id NGHTTP2_ENHANCE_YOUR_CALM ∧
     (s.onHeaderCallback id n v).1.closing = s.closing ∧
     (s.onHeaderCallback id n v).1.closed = s.closed ∧
     (s.onHeaderCallback id n v).1.streams.map Prod.fst =
       s.streams.map Prod.fst) := by
  have hnoop : (st.addHeader s n v).1 = st := by
    cases hcond : (!s.isAvailableSessionMemory (n + v + HEADER_OVERHEAD) ||
        st.currentHeaders.length == st.maxHeaderPairs ||
        decide (st.currentHeadersLength + (n + v + HEADER_OVERHEAD) > st.maxHeaderLength)) with
    | true => simp only [Http2Stream.addHeader, hcond, if_true]
    | false => simp [Http2Stream.addHeader, hcond] at hrej
  refine ⟨?_, hnoop, ?_⟩
  · have hb := addHeaders_bounds s pairs st.startHeaders
      (by simp [Http2Stream.startHeaders])
      (by simp [Http2Stream.startHeaders])
      (by simp [Http2Stream.startHeaders, headerListPrice])
    have hmp : st.startHeaders.maxHeaderPairs = st.maxHeaderPairs := rfl
    have hml : st.startHeaders.maxHeaderLength = st.maxHeaderLength := rfl
    exact ⟨hb.2.2.1 ▸ (hml ▸ hb.2.1), hmp ▸ hb.1⟩
  · have hah : st.addHeader s n v = (st, false) := by
      have := hrej
      cases hx : st.addHeader s n v with
      | mk a b =>
        rw [hx] at hrej hnoop
        simp at hrej hnoop
        rw [hrej, hnoop]
    obtain ⟨r1, r2, r3, r4⟩ :=
      submitRstStream_core s st NGHTTP2_ENHANCE_YOUR_CALM
    simp only [Http2Session.onHeaderCallback, hfind, hdes, hah,
      Bool.false_eq_true, if_false, Http2Session.updateStream]
    refine ⟨by trivial, r1, r2, ?_⟩
    rw [r3]
    exact map_fst_update s.streams id _

/-- Stream with small header ceilings used by the C3 witness. -/
def c3Stream : Http2Stream := mkStream 9 2 100

/-- Session owning c3Stream. -/
def c3Session : Http2Session :=
  { emptySession with streams := [(9, c3Stream)] }

/-- Witness for header_limits_enforced: a pair priced at 112 bytes
against a 100-byte ceiling is rejected and resets only stream 9, and a
two-pair block admitted from StartHeaders stays within both ceilings. -/
theorem header_limits_enforced_witness :
    c3Session.findStream 9 = some c3Stream ∧
    c3Stream.destroyed = false ∧
    (c3Stream.addHeader c3Session 40 40).2 = false ∧
    ((headerListPrice
        (addHeaders c3Session c3Stream.startHeaders [(1, 2), (3, 4)]).currentHeaders ≤
        c3Stream.maxHeaderLength ∧
      (addHeaders c3Session c3Stream.startHeaders [(1, 2), (3, 4)]).currentHeaders.length ≤
        c3Stream.maxHeaderPairs) ∧
     (c3Stream.addHeader c3Session 40 40).1 = c3Stream ∧
     ((c3Session.onHeaderCallback 9 40 40).2 =
        .streamReset 9 NGHTTP2_ENHANCE_YOUR_CALM ∧
      (c3Session.onHeaderCallback 9 40 40).1.closing = c3Session.closing ∧
      (c3Session.onHeaderCallback 9 40 40).1.closed = c3Session.closed ∧
      (c3Session.onHeaderCallback 9 40 40).1.streams.map Prod.fst =
        c3Session.streams.map Prod.fst)) :=
  ⟨by decide, by decide, by decide,
   header_limits_enforced c3Session c3Stream [(1, 2), (3, 4)] 9 40 40
     (by decide) (by decide) (by decide)⟩

/-- C10: AddHeader also rejects a pair, leaving the stream state (header
list, running byte total, incref count) untouched, when the session-wide
memory budget cannot afford its priced size, even though neither
per-stream ceiling would be violated; through OnHeaderCallback this
resets that stream. -/
theorem header_rejected_on_memory_pressure (s : Http2Session) (st : Http2Stream)
    (id n v : Nat)
    (hmem : s.isAvailableSessionMemory (n + v + HEADER_OVERHEAD) = false)
    (hcount : st.currentHeaders.length < st.maxHeaderPairs)
    (hbytes : st.currentHeadersLength + (n + v + HEADER_OVERHEAD) ≤ st.maxHeaderLength)
    (hfind : s.findStream id = some st) (hdes : st.destroyed = false) :
    st.addHeader s n v = (st, false) ∧
    (s.onHeaderCallback id n v).2 = .streamReset id NGHTTP2_ENHANCE_YOUR_CALM := by
  have hah : st.addHeader s n v = (st, false) := by
    unfold Http2Stream.addHeader
    simp [hmem]
  refine ⟨hah, ?_⟩
  simp only [Http2Session.onHeaderCallback, hfind, hdes, hah,
    Bool.false_eq_true, if_false]

/-- Session with an exhausted memory budget owning one fresh stream. -/
def c10Session : Http2Session :=
  { emptySession with
    streams := [(9, mkStream 9 16 1000)]
    currentSessionMemory := 10000 }

/-- Witness for header_rejected_on_memory_pressure: with the budget at
its ceiling, a 37-byte pair that fits both per-stream ceilings is still
rejected and the stream reset. -/
theorem header_rejected_on_memory_pressure_witness :
    c10Session.isAvailableSessionMemory (2 + 3 + HEADER_OVERHEAD) = false ∧
    (mkStream 9 16 1000).currentHeaders.length < (mkStream 9 16 1000).maxHeaderPairs ∧
    (mkStream 9 16 1000).currentHeadersLength + (2 + 3 + HEADER_OVERHEAD) ≤
      (mkStream 9 16 1000).maxHeaderLength ∧
    ((mkStream 9 16 1000).addHeader c10Session 2 3 = (mkStream 9 16 1000, false) ∧
     (c10Session.onHeaderCallback 9 2 3).2 =
       .streamReset 9 NGHTTP2_ENHANCE_YOUR_CALM) :=
  ⟨by decide, by decide, by decide,
   header_rejected_on_memory_pressure c10Session (mkStream 9 16 1000) 9 2 3
     (by decide) (by decide) (by decide) (by decide) (by decide)⟩

/-- C6: Destroy on a live stream does not free it synchronously: it only
marks the stream destroyed and schedules the deletion task for a later
tick; that task deletes the stream object only when no write currently
on the socket references the stream; and once the transport reports the
write finished (ClearOutgoing), the outgoing buffer list is empty, so no
stream is referenced any longer and a deferred deletion can proceed. -/
theorem stream_freed_only_after_writes_retired (s : Http2Session) (st : Http2Stream)
    (status : Int) (hpend : s.pendingRstStreams = []) (hd : st.destroyed = false) :
    ((Http2Stream.destroy s st).taskScheduled = true ∧
     (Http2Stream.destroy s st).stream.destroyed = true) ∧
    (Http2Stream.destroyTick s false st).freed =
      !(s.hasWritesOnSocketForStream st.id) ∧
    (s.clearOutgoing status).1.outgoingBuffers = [] ∧
    (∀ id2, (s.clearOutgoing status).1.hasWritesOnSocketForStream id2 = false) := by
  refine ⟨?_, ?_, ?_, ?_⟩
  · simp [Http2Stream.destroy, hd]
  · simp [Http2Stream.destroyTick]
  · simp [Http2Session.clearOutgoing, clearOutgoingF, hpend]
  · intro id2
    simp [Http2Session.clearOutgoing, clearOutgoingF, hpend,
      Http2Session.hasWritesOnSocketForStream]

/-- Session whose socket currently holds a write referencing stream 5. -/
def c6Session : Http2Session :=
  { emptySession with outgoingBuffers := [⟨some 5, 10⟩] }

/-- Witness for stream_freed_only_after_writes_retired on a session with
a socket write referencing stream 5: the deferred task does not free the
stream (freed = false) while the reference is live, and after write
completion nothing is referenced. -/
theorem stream_freed_only_after_writes_retired_witness :
    c6Session.pendingRstStreams = [] ∧
    (mkStream 5 16 1000).destroyed = false ∧
    (((Http2Stream.destroy c6Session (mkStream 5 16 1000)).taskScheduled = true ∧
      (Http2Stream.destroy c6Session (mkStream 5 16 1000)).stream.destroyed = true) ∧
     (Http2Stream.destroyTick c6Session false (mkStream 5 16 1000)).freed =
       !(c6Session.hasWritesOnSocketForStream (mkStream 5 16 1000).id) ∧
     (c6Session.clearOutgoing 0).1.outgoingBuffers = [] ∧
     (∀ id2, (c6Session.clearOutgoing 0).1.hasWritesOnSocketForStream id2 = false)) :=
  ⟨by decide, by decide,
   stream_freed_only_after_writes_retired c6Session (mkStream 5 16 1000) 0
     (by decide) (by decide)⟩

/-- SendPendingData on a live session with no flush in progress always
returns 0 (its non-zero return only signals a flush already running). -/
theorem sendPendingData_ret_not_sending (s : Http2Session)
    (hd : s.destroyed = false) (hs : s.sending = false) :
    (sendPendingDataF 4 s).2.1 = 0 := by
  simp only [sendPendingDataF, hd, Bool.false_eq_true, if_false, hs]
  split
  · rfl
  · split
    · rfl
    · split
      · rfl
      · rfl

/-- C7: when SubmitRstStream runs while a flush is in progress (the
SENDING flag is set), the RST_STREAM is not handed to the codec but
recorded in pending_rst_streams_; when no flush is in progress it is
submitted to the codec within the call; and the write-completion path
(ClearOutgoing) empties the deferred list, submitting the RST_STREAM of
every deferred id whose stream still exists and is not destroyed. -/
theorem rst_stream_deferred_during_flush (s : Http2Session) (st : Http2Stream)
    (code : Nat) (status : Int)
    (hstd : st.destroyed = false) (hsd : s.destroyed = false) :
    (s.sending = true →
       (Http2Stream.submitRstStream s st code).deferred = true ∧
       (Http2Stream.submitRstStream s st code).rstSubmitted = [] ∧
       (Http2Stream.submitRstStream s st code).sess.pendingRstStreams =
         s.pendingRstStreams ++ [st.id]) ∧
    (s.sending = false →
       (Http2Stream.submitRstStream s st code).deferred = false ∧
       (st.id, (code : Int)) ∈ (Http2Stream.submitRstStream s st code).rstSubmitted) ∧
    (s.sending = true → s.socketGone = false → s.codecPending = [] →
       (s.clearOutgoing status).1.pendingRstStreams = [] ∧
       (s.clearOutgoing status).2.rstSubmitted =
         s.pendingRstStreams.filterMap (fun id =>
           match s.findStream id with
           | none => none
           | some st2 => if st2.destroyed then none
                         else some (id, (st2.code : Int)))) := by
  refine ⟨fun hsend => ?_, fun hsend => ?_, fun _ hsg hcp => ?_⟩
  · have hr : sendPendingDataF 4 s =
        ({ s with writeScheduled := false }, 1, ⟨[], []⟩) := by
      simp [sendPendingDataF, hsd, hsend]
    simp [Http2Stream.submitRstStream, Http2Session.sendPendingData, hr]
  · have h0 := sendPendingData_ret_not_sending s hsd hsend
    simp only [Http2Stream.submitRstStream, Http2Session.sendPendingData, h0, ne_eq,
      not_true_eq_false, Bool.false_eq_true, if_false]
    refine ⟨by simp, ?_⟩
    simp [Http2Stream.flushRstStream, hstd]
  · cases hpd : s.pendingRstStreams with
    | nil =>
      constructor
      · simp [Http2Session.clearOutgoing, clearOutgoingF, hpd]
      · simp [Http2Session.clearOutgoing, clearOutgoingF, hpd]
    | cons a t =>
      have hinner : ∀ s3 : Http2Session, s3.destroyed = false → s3.sending = false →
          s3.socketGone = false → s3.codecPending = [] → s3.pendingRstStreams = [] →
          (sendPendingDataF 3 s3).2.2 = ⟨[], []⟩ := by
        intro s3 h1 h2 h3 h4 h5
        simp [sendPendingDataF, clearOutgoingF, h1, h2, h3, h4, h5]
      have hB := ((flush_sameCore 3).2
        { s with sending := false, outgoingBuffers := [], pendingRstStreams := [] }).1
      have hA := (flush_pending_nil 3).2
        { s with sending := false, outgoingBuffers := [], pendingRstStreams := [] } rfl
      have hC := hinner
        { s with sending := false, outgoingBuffers := [], pendingRstStreams := [] }
        hsd rfl hsg hcp rfl
      simp only [Http2Session.clearOutgoing, clearOutgoingF, hpd, List.isEmpty_cons,
        Bool.false_eq_true, if_false]
      constructor
      · exact hA
      · simp only [hC, hB, List.nil_append, Http2Session.findStream]

/-- Session in mid-flush holding a deferred RST_STREAM for stream 5,
which is registered with code 11. -/
def c7Session : Http2Session :=
  { emptySession with
    sending := true
    pendingRstStreams := [5]
    streams := [(5, { mkStream 5 16 1000 with code := 11 })] }

/-- Witness for rst_stream_deferred_during_flush: on c7Session (flush in
progress) another SubmitRstStream for stream 6 is deferred, and the
write-completion path flushes the deferred RST_STREAM(11) of stream 5. -/
theorem rst_stream_deferred_during_flush_witness :
    (mkStream 6 16 1000).destroyed = false ∧
    c7Session.destroyed = false ∧
    ((c7Session.sending = true →
        (Http2Stream.submitRstStream c7Session (mkStream 6 16 1000) 8).deferred = true ∧
        (Http2Stream.submitRstStream c7Session (mkStream 6 16 1000) 8).rstSubmitted = [] ∧
        (Http2Stream.submitRstStream c7Session (mkStream 6 16 1000) 8).sess.pendingRstStreams =
          c7Session.pendingRstStreams ++ [(mkStream 6 16 1000).id]) ∧
     (c7Session.sending = false →
        (Http2Stream.submitRstStream c7Session (mkStream 6 16 1000) 8).deferred = false ∧
        ((mkStream 6 16 1000).id, ((8 : Nat) : Int)) ∈
          (Http2Stream.submitRstStream c7Session (mkStream 6 16 1000) 8).rstSubmitted) ∧
     (c7Session.sending = true → c7Session.socketGone = false →
        c7Session.codecPending = [] →
        (c7Session.clearOutgoing 0).1.pendingRstStreams = [] ∧
        (c7Session.clearOutgoing 0).2.rstSubmitted =
          c7Session.pendingRstStreams.filterMap (fun id =>
            match c7Session.findStream id with
            | none => none
            | some st2 => if st2.destroyed then none
                          else some (id, (st2.code : Int))))) :=
  ⟨by decide, by decide,
   rst_stream_deferred_during_flush c7Session (mkStream 6 16 1000) 8 0
     (by decide) (by decide)⟩

/-- The queue entries DoWrite appends for a buffer list starting at
index i, with the req_wrap attached at index lastIdx. -/
def renderWrites (sid lastIdx : Nat) : Nat → List Nat → List StreamWrite
  | _, [] => []
  | i, len :: rest =>
    ⟨if i == lastIdx then some sid else none, len⟩ :: renderWrites sid lastIdx (i + 1) rest

/-- The DoWrite enqueue loop appends exactly the rendered entries, grows
available_outbound_length_ by the total byte length, and charges the
session memory budget by the same amount. -/
theorem enqueueBufs_spec (sid lastIdx : Nat) (bufs : List Nat) :
    ∀ (i : Nat) (s : Http2Session) (st : Http2Stream),
      enqueueBufs sid lastIdx i bufs s st =
        ({ s with currentSessionMemory := s.currentSessionMemory + bufs.sum },
         { st with
            queue := st.queue ++ renderWrites sid lastIdx i bufs
            availableOutboundLength := st.availableOutboundLength + bufs.sum }) := by
  induction bufs with
  | nil =>
    intro i s st
    simp [enqueueBufs, renderWrites]
  | cons len rest ih =>
    intro i s st
    simp only [enqueueBufs, renderWrites, ih,
      Http2Session.incrementCurrentSessionMemory, List.sum_cons]
    simp [Prod.ext_iff, Nat.add_assoc, List.append_assoc]

/-- C8 counterexample: DoWrite asks the codec to resume the stream data
(the wake-up of the write machinery) on every successful enqueue, even
when the stream already had queued data, so the wake-up is not
edge-triggered on an empty queue. -/
def c8Stream : Http2Stream :=
  { mkStream 5 16 1000 with queue := [⟨none, 4⟩], availableOutboundLength := 4 }

/-- C8 counterexample theorem: a stream with prior queued data is still
woken on the next enqueue. -/
theorem enqueue_wake_not_edge_triggered_counterexample :
    c8Stream.queue ≠ [] ∧
    (Http2Stream.doWrite emptySession c8Stream [3]).resumedData = true := by decide

/-- C8 amended: DoWrite on a writable, non-destroyed stream appends the
given buffers (req_wrap on the last one) to the outbound queue, grows
available_outbound_length_ by exactly their total byte length, completes
nothing synchronously, and invokes nghttp2_session_resume_data on every
such call, regardless of whether the stream had prior queued data. -/
theorem enqueue_outbound_behaviour (s : Http2Session) (st : Http2Stream)
    (bufs : List Nat) (hw : st.writable = true) (hd : st.destroyed = false) :
    (Http2Stream.doWrite s st bufs).stream.queue =
      st.queue ++ renderWrites st.id (bufs.length - 1) 0 bufs ∧
    (Http2Stream.doWrite s st bufs).stream.availableOutboundLength =
      st.availableOutboundLength + bufs.sum ∧
    (Http2Stream.doWrite s st bufs).sess.currentSessionMemory =
      s.currentSessionMemory + bufs.sum ∧
    (Http2Stream.doWrite s st bufs).doneNow = none ∧
    (Http2Stream.doWrite s st bufs).resumedData = true := by
  simp [Http2Stream.doWrite, hw, hd, enqueueBufs_spec]

/-- Witness for enqueue_outbound_behaviour: enqueueing two buffers of 3
and 4 bytes on c8Stream (which already holds 4 queued bytes). -/
theorem enqueue_outbound_behaviour_witness :
    c8Stream.writable = true ∧
    c8Stream.destroyed = false ∧
    ((Http2Stream.doWrite emptySession c8Stream [3, 4]).stream.queue =
       c8Stream.queue ++ renderWrites c8Stream.id 1 0 [3, 4] ∧
     (Http2Stream.doWrite emptySession c8Stream [3, 4]).stream.availableOutboundLength =
       c8Stream.availableOutboundLength + [3, 4].sum ∧
     (Http2Stream.doWrite emptySession c8Stream [3, 4]).sess.currentSessionMemory =
       emptySession.currentSessionMemory + [3, 4].sum ∧
     (Http2Stream.doWrite emptySession c8Stream [3, 4]).doneNow = none ∧
     (Http2Stream.doWrite emptySession c8Stream [3, 4]).resumedData = true) :=
  ⟨by decide, by decide,
   enqueue_outbound_behaviour emptySession c8Stream [3, 4] (by decide) (by decide)⟩

end Http2
